import Mathlib

/-!
Shallow embedding of the Feishu/Lark channel adapter (`src/channel.ts`) of
openclaw-feishu, together with theorems settling the specification claims.

Conventions of the embedding:
* JavaScript `Set<string>` values are modelled as `List String` with
  insertion-order, duplicate-free insertion (`jsSetAdd`).
* JavaScript truthiness of optional strings / numbers is modelled explicitly
  (`""` and `0` are falsy).
* Library calls declared out of scope by the design (JSON encoding/parsing,
  HMAC, `Date` parsing, network transport) enter the model as already-parsed
  structured data or as explicit function parameters; network responses are
  passed in as arguments and the number of network calls made is returned.
-/

namespace Feishu

/-- JS `Set.add`: insert if not present, preserving insertion order. -/
def jsSetAdd (l : List String) (x : String) : List String :=
  if x ∈ l then l else l ++ [x]

/-- JS `a || b` for optional strings: `a` unless it is absent or empty. -/
def jsOrStr (a : Option String) (b : Option String) : Option String :=
  match a with
  | some s => if s = "" then b else some s
  | none => b

/-- Helper for `jsIncludes`: does `pat` occur as a contiguous run in the
character list? -/
def jsIncludesAux (pat : List Char) : List Char -> Bool
  | [] => pat.isPrefixOf []
  | c :: rest => pat.isPrefixOf (c :: rest) || jsIncludesAux pat rest

/-- JS `String.includes`: substring occurrence. -/
def jsIncludes (s sub : String) : Bool :=
  jsIncludesAux sub.toList s.toList

/-- JS `String.startsWith`: prefix test. -/
def jsStartsWith (s p : String) : Bool :=
  p.toList.isPrefixOf s.toList

/-- Split a character list at a separator character; `"".split` yields one
empty chunk, and a trailing separator yields a trailing empty chunk, as in
JS `String.split`. -/
def jsSplitChars (sep : Char) (cs : List Char) : List (List Char) :=
  match cs with
  | [] => [[]]
  | c :: rest =>
      let r := jsSplitChars sep rest
      if c = sep then [] :: r
      else
        match r with
        | [] => [[c]]
        | h :: t => (c :: h) :: t

/-- JS `text.split("\n")`. -/
def jsSplitLines (s : String) : List String :=
  (jsSplitChars '\n' s.toList).map List.asString

/-- The `dmPolicy` configuration values. -/
inductive DmPolicy where
  | pairing
  | openPolicy
  | allowlist
deriving DecidableEq, Repr

/-- The `reason` values of a policy decision. -/
inductive PolicyReason where
  | pending
  | denied
  | allowed
deriving DecidableEq, Repr

/-- Result record of `checkPairingPolicy`. -/
structure PolicyResult where
  allowed : Bool
  reason : PolicyReason
deriving DecidableEq, Repr

/-- The `PairingState` record: pending / paired / allowlist user-id sets. -/
structure PairingState where
  pendingUsers : List String
  pairedUsers : List String
  allowlist : List String
deriving DecidableEq, Repr

/-- Embedding of `checkPairingPolicy` from `channel.ts`. The TypeScript function mutates
`state` in place; the embedding returns the decision together with the
post-state. -/
def checkPairingPolicy (userId : String) (policy : DmPolicy)
    (state : PairingState) : PolicyResult × PairingState :=
  match policy with
  | .openPolicy => (⟨true, .allowed⟩, state)
  | .allowlist =>
      if userId ∈ state.allowlist ∨ userId ∈ state.pairedUsers then
        (⟨true, .allowed⟩, state)
      else
        (⟨false, .pending⟩, state)
  | .pairing =>
      if userId ∈ state.pairedUsers then
        (⟨true, .allowed⟩, state)
      else if userId ∈ state.allowlist then
        (⟨true, .allowed⟩,
          { state with pairedUsers := jsSetAdd state.pairedUsers userId })
      else
        let state' :=
          if userId ∈ state.pendingUsers then state
          else { state with pendingUsers := jsSetAdd state.pendingUsers userId }
        (⟨false, .pending⟩, state')

/-- The two platform regions (`domain` field). -/
inductive Domain where
  | feishu
  | lark
deriving DecidableEq, Repr

/-- The `FeishuAccount` record: app credentials plus the cached tenant token.
`tenantAccessToken` / `tokenExpiry` are JS optionals (possibly `undefined`);
`""` and `0` are falsy and treated like absent by the cache check. -/
structure FeishuAccount where
  appId : String
  appSecret : String
  domain : Domain
  tenantAccessToken : Option String
  tokenExpiry : Option Int
deriving DecidableEq, Repr

/-- Body of the auth-exchange response, already JSON-decoded
(JSON transport is out of scope of the embedding). -/
structure AuthResponse where
  code : Int
  msg : String
  tenant_access_token : String
  expire : Int
deriving DecidableEq, Repr

/-- Outcome of `getTenantAccessToken`: the token or the thrown error message,
the account as left after the call (the TypeScript function mutates the
account's cached fields), and how many network requests were issued. -/
structure TokenOutcome where
  result : Except String String
  account : FeishuAccount
  networkCalls : Nat
deriving Repr

/-- Embedding of `getTenantAccessToken` from `channel.ts`. `now` stands for `Date.now()`
and `resp` for the decoded body of the auth-exchange POST, which is only
consulted (and only counted) when the cached token misses. -/
def getTenantAccessToken (account : FeishuAccount) (now : Int)
    (resp : AuthResponse) : TokenOutcome :=
  match account.tenantAccessToken, account.tokenExpiry with
  | some tok, some expiry =>
      if tok ≠ "" ∧ expiry ≠ 0 ∧ now < expiry - 60000 then
        { result := .ok tok, account := account, networkCalls := 0 }
      else
        refresh account now resp
  | _, _ => refresh account now resp
where
  /-- The network branch: POST to the auth endpoint, check the `code`
  discriminator, cache on success, throw on failure (no caching). -/
  refresh (account : FeishuAccount) (now : Int) (resp : AuthResponse) :
      TokenOutcome :=
    if resp.code ≠ 0 then
      { result := .error ("Failed to get tenant access token: " ++ resp.msg),
        account := account, networkCalls := 1 }
    else
      { result := .ok resp.tenant_access_token,
        account := { account with
          tenantAccessToken := some resp.tenant_access_token,
          tokenExpiry := some (now + resp.expire * 1000) },
        networkCalls := 1 }

/-- The sender record of a platform message event. `id_type` is kept as a
raw string: the wire may carry values (such as `"app_id"`) outside the
declared TypeScript union. -/
structure FeishuSender where
  id : String
  id_type : String
  name : Option String
deriving DecidableEq, Repr

/-- A platform message event. `content` is the wire content's JSON-parse
outcome (JSON parsing is a library call, out of scope): `none` = the parse
threw; `some t` = the parse succeeded and `t` is the parsed object's `text`
field (absent when the object has none). `create_time` stays a raw string;
`Date` parsing enters `parseFeishuMessage` as a parameter. -/
structure FeishuMessage where
  message_id : String
  root_id : Option String
  parent_id : Option String
  chat_id : String
  chat_type : String
  sender : FeishuSender
  message_type : String
  content : Option (Option String)
  create_time : String
deriving DecidableEq, Repr

/-- The normalized message handed to the host. -/
structure InboundMessage where
  id : String
  type : String
  text : String
  senderId : String
  senderName : String
  conversationId : String
  conversationType : String
  timestamp : Int
  replyToId : Option String
  raw : FeishuMessage
deriving DecidableEq, Repr

/-- Embedding of `parseFeishuMessage` from `channel.ts`. `dateParse` models
`s => new Date(s).getTime()`. The TypeScript `content.text || ""` yields the
field when it is a non-empty string and `""` otherwise; on a thrown JSON
parse the text falls back to the bracketed message kind. -/
def parseFeishuMessage (dateParse : String → Int) (msg : FeishuMessage)
    (_account : FeishuAccount) : Option InboundMessage :=
  if msg.sender.id_type = "app_id" then
    none
  else
    let text :=
      match msg.content with
      | some t => (jsOrStr t (some "")).getD ""
      | none => "[" ++ msg.message_type ++ "]"
    some
      { id := msg.message_id
        type := msg.message_type
        text := text
        senderId := msg.sender.id
        senderName := (jsOrStr msg.sender.name (some "Unknown")).getD "Unknown"
        conversationId := msg.chat_id
        conversationType := msg.chat_type
        timestamp := dateParse msg.create_time
        replyToId := jsOrStr msg.root_id msg.parent_id
        raw := msg }

/-- One element of an interactive card: always
`{tag:"div", text:{tag:<textTag>, content:<content>}}` in this adapter. -/
structure CardElement where
  tag : String
  textTag : String
  content : String
deriving DecidableEq, Repr

/-- The card payload produced by `renderMarkdownCard` (the enclosing
`{msg_type:"interactive", card:{config:{wide_screen_mode:true}, elements}}`
wrapper, with only the element list varying). -/
structure CardPayload where
  wide_screen_mode : Bool
  elements : List CardElement
deriving DecidableEq, Repr

/-- JS regex test `/^\d+\./`: one or more leading digits followed by a dot. -/
def startsWithNumDot (s : String) : Bool :=
  let ds := s.toList.takeWhile Char.isDigit
  !ds.isEmpty && (s.toList.drop ds.length).take 1 = ['.']

/-- Embedding of `renderMarkdownCard` from `channel.ts`: split into lines, skip fence
markers, push one `div`/`lark_md` element for every other line (the
heading / list / numbered / default branches all build the same element). -/
def renderMarkdownCard (text : String) : CardPayload :=
  { wide_screen_mode := true
    elements := (jsSplitLines text).filterMap fun line =>
      if jsStartsWith line "```" then
        none
      else if jsStartsWith line "#" then
        some { tag := "div", textTag := "lark_md", content := line }
      else if jsStartsWith line "- " || jsStartsWith line "* " then
        some { tag := "div", textTag := "lark_md", content := line }
      else if startsWithNumDot line then
        some { tag := "div", textTag := "lark_md", content := line }
      else
        some { tag := "div", textTag := "lark_md", content := line } }

/-- The `renderMode` configuration values. -/
inductive RenderMode where
  | auto
  | raw
  | card
deriving DecidableEq, Repr

/-- The outbound message content: either the JSON encoding of `{text}` or an
interactive card payload (the JSON serialisation itself is out of scope, so
the structured value stands for its encoding). -/
inductive OutboundContent where
  | textJson (text : String)
  | interactive (card : CardPayload)
deriving DecidableEq, Repr

/-- The rendering branch of `sendText`: pick `msg_type` and `content` from
the effective render mode (`config...renderMode || "auto"` is resolved by
the caller into `renderMode`). -/
def encodeOutboundText (renderMode : RenderMode) (text : String) :
    String × OutboundContent :=
  match renderMode with
  | .card => ("interactive", .interactive (renderMarkdownCard text))
  | .auto =>
      if jsIncludes text "```" || jsIncludes text "|" then
        ("interactive", .interactive (renderMarkdownCard text))
      else
        ("text", .textJson text)
  | .raw => ("text", .textJson text)

/-- A decoded platform API response (`{code, msg, data:{message_id |
image_key}}`). -/
structure ApiResponse where
  code : Int
  msg : String
  message_id : Option String
  image_key : Option String
deriving DecidableEq, Repr

/-- The `MediaDeliveryResult` record as returned by `sendMedia`. -/
structure MediaDeliveryResult where
  ok : Bool
  messageId : Option String
  error : Option String
deriving DecidableEq, Repr

/-- Outcome of `sendMedia`: the delivery result plus how many phase-2
send-message requests were issued. -/
structure SendMediaOutcome where
  result : MediaDeliveryResult
  sendMessageCalls : Nat
deriving DecidableEq, Repr

/-- The response-handling skeleton of `sendMedia` from `channel.ts`:
phase 1 uploads the media (`uploadResp` is the decoded upload response);
a non-zero upload `code` short-circuits with `{ok:false, error:msg}` before
the phase-2 send-message POST; otherwise the send is issued and its `code`
checked the same way. -/
def sendMedia (uploadResp : ApiResponse) (sendResp : ApiResponse) :
    SendMediaOutcome :=
  if uploadResp.code ≠ 0 then
    { result := { ok := false, messageId := none, error := some uploadResp.msg }
      sendMessageCalls := 0 }
  else if sendResp.code ≠ 0 then
    { result := { ok := false, messageId := none, error := some sendResp.msg }
      sendMessageCalls := 1 }
  else
    { result := { ok := true, messageId := sendResp.message_id, error := none }
      sendMessageCalls := 1 }

/-- JS truthiness of an optional string (`undefined` and `""` are falsy). -/
def jsTruthyStr (o : Option String) : Bool :=
  match o with
  | some s => s ≠ ""
  | none => false

/-- A non-message sub-event of a webhook body; `message`, when present,
is the message sub-event, and `rest` stands opaquely for the remaining
fields (the raw event is forwarded unchanged to `handleEvent`). -/
structure WebhookEvent where
  message : Option FeishuMessage
  rest : String
deriving DecidableEq, Repr

/-- A webhook POST body after `JSON.parse` (the parse itself is a library
call): the fields the handler reads. -/
structure WebhookBody where
  type : Option String
  challenge : Option String
  event : Option WebhookEvent
deriving DecidableEq, Repr

/-- The response bodies the webhook handler can write. `challengeEcho c`
stands for `JSON.stringify({challenge: c})`. -/
inductive WebhookRespBody where
  | invalidSignature
  | challengeEcho (challenge : Option String)
  | okText
  | errorText
deriving DecidableEq, Repr

/-- Observable outcome of one webhook POST: HTTP status and body, the
messages forwarded to `handleMessage`, the raw events forwarded to
`handleEvent`, the sender ids for which a pairing prompt was sent, and the
pairing state after the call. -/
structure WebhookOutcome where
  status : Nat
  body : WebhookRespBody
  messages : List InboundMessage
  events : List WebhookEvent
  prompts : List String
  state : PairingState
deriving DecidableEq, Repr

/-- The webhook request handler of `createWebhookInbound` for a
`POST /webhook`, after the body has been received. `hmac key msg` models
`crypto.createHmac("sha256", key).update(msg).digest("base64")`;
`timestamp` and `signature` are the two request headers after `|| ""`;
`body` is the `JSON.parse` outcome (`none` = the parse threw, handled by the
surrounding catch with a 500). The signature is checked only when
`config.verificationToken` is truthy, before the `url_verification` echo and
the event pipeline. -/
def handleWebhookPost (hmac : String → String → String)
    (dateParse : String → Int) (verificationToken : Option String)
    (dmPolicyCfg : Option DmPolicy) (account : FeishuAccount)
    (state : PairingState) (timestamp signature : String)
    (body : Option WebhookBody) : WebhookOutcome :=
  match body with
  | none =>
      { status := 500, body := .errorText, messages := [], events := [],
        prompts := [], state := state }
  | some data =>
      let sigMismatch : Bool :=
        match verificationToken with
        | some vt =>
            vt ≠ "" && signature ≠ hmac vt (timestamp ++ vt)
        | none => false
      if sigMismatch then
        { status := 401, body := .invalidSignature, messages := [],
          events := [], prompts := [], state := state }
      else if data.type = some "url_verification" then
        { status := 200, body := .challengeEcho data.challenge,
          messages := [], events := [], prompts := [], state := state }
      else
        match data.event with
        | none =>
            { status := 200, body := .okText, messages := [], events := [],
              prompts := [], state := state }
        | some ev =>
            match ev.message with
            | none =>
                { status := 200, body := .okText, messages := [],
                  events := [ev], prompts := [], state := state }
            | some m =>
                match parseFeishuMessage dateParse m account with
                | none =>
                    { status := 200, body := .okText, messages := [],
                      events := [], prompts := [], state := state }
                | some msg =>
                    if msg.conversationType = "direct" then
                      let policy := dmPolicyCfg.getD .pairing
                      let (check, state') :=
                        checkPairingPolicy msg.senderId policy state
                      if ¬check.allowed ∧ check.reason = .pending then
                        { status := 200, body := .okText, messages := [],
                          events := [], prompts := [msg.senderId],
                          state := state' }
                      else
                        { status := 200, body := .okText, messages := [msg],
                          events := [], prompts := [], state := state' }
                    else
                      { status := 200, body := .okText, messages := [msg],
                        events := [], prompts := [], state := state }

/-- State of the WebSocket inbound session, as held by the closure variables
of `createWebSocketInbound` plus the event queue of the runtime:
`wsExists` = the `ws` variable is non-null; `pendingClose` = a close event
for the socket is queued but its handler has not run yet; `reconnectTimer` =
`reconnectTimeout` holds a pending timer; `hasAccount` = `currentAccount`
and `currentConfig` are set; `connects` counts invocations of `connect`;
`stopRequested` is a ghost flag recording that `stop()` was called. -/
structure WsSessionState where
  wsExists : Bool
  pendingClose : Bool
  reconnectTimer : Bool
  hasAccount : Bool
  connects : Nat
  stopRequested : Bool
deriving DecidableEq, Repr

/-- The atomic events of the session's event loop. -/
inductive WsStep where
  | transportClose
  | oncloseFires
  | timerFires
  | stopCall
deriving DecidableEq, Repr

/-- One step of the session event loop, following the handlers in
`createWebSocketInbound`:
* `transportClose`: the far end or the network closes the socket — a close
  event is queued for the still-registered `onclose` handler;
* `oncloseFires`: the queued `onclose` handler runs — it emits
  `disconnected` and, because `currentAccount`/`currentConfig` are still
  set, schedules `reconnectTimeout = setTimeout(connect, 5000)`;
* `timerFires`: a pending reconnect timer elapses and its callback calls
  `connect`, which opens a new socket and re-registers handlers;
* `stopCall`: `stop()` runs — it clears a pending `reconnectTimeout`, and
  if `ws` is non-null calls `ws.close()` (queueing a close event for the
  socket's handlers) and nulls `ws`. -/
def wsStep (s : WsSessionState) (e : WsStep) : WsSessionState :=
  match e with
  | .transportClose =>
      if s.wsExists then { s with pendingClose := true } else s
  | .oncloseFires =>
      if s.pendingClose then
        let s := { s with pendingClose := false }
        if s.hasAccount then { s with reconnectTimer := true } else s
      else s
  | .timerFires =>
      if s.reconnectTimer then
        { s with
          reconnectTimer := false
          hasAccount := true
          wsExists := true
          connects := s.connects + 1 }
      else s
  | .stopCall =>
      let s := { s with stopRequested := true, reconnectTimer := false }
      if s.wsExists then
        { s with pendingClose := true, wsExists := false }
      else s

/-- Run the session event loop over a list of steps. -/
def wsRun (s : WsSessionState) (es : List WsStep) : WsSessionState :=
  es.foldl wsStep s

/-- The session state right after a successful initial `connect`. -/
def wsConnectedState : WsSessionState :=
  { wsExists := true, pendingClose := false, reconnectTimer := false,
    hasAccount := true, connects := 1, stopRequested := false }

/-- The `verifySignature` method of the WebSocket inbound adapter: returns `true`
unconditionally. -/
def webSocketVerifySignature (_payload _signature _timestamp : String) :
    Bool :=
  true

/-- The `verifySignature` method of the webhook inbound adapter: returns `true`
unconditionally. -/
def webhookVerifySignature (_payload _signature _timestamp : String) :
    Bool :=
  true

/-- A sample account for instantiating the model on concrete inputs. -/
def acct0 : FeishuAccount :=
  { appId := "app", appSecret := "sec", domain := .feishu,
    tenantAccessToken := none, tokenExpiry := none }

/-- A sample `Date`-parse stub for instantiating the model on concrete
inputs. -/
def zeroDate (_ : String) : Int :=
  0

/-- A sample (non-cryptographic) stand-in for the HMAC library call, for
instantiating the webhook model on concrete inputs. -/
def concatHmac (key msg : String) : String :=
  key ++ msg

/-! ## Theorems -/

/-- Adding an element always makes it a member. -/
theorem mem_jsSetAdd_self (l : List String) (x : String) :
    x ∈ jsSetAdd l x := by
  unfold jsSetAdd
  split
  · assumption
  · simp

/-- C1: under `policy=pairing`, a paired user is allowed with the state
unchanged; otherwise an allowlisted user is promoted into `pairedUsers`
(one-time) and allowed; otherwise the user is inserted into `pendingUsers`
only if not already present and the call returns `{allowed:false,
reason:pending}`, and a second call for the same still-unapproved user
returns the same decision without any further state change. -/
theorem checkPairingPolicy_pairing_correct (U : String) (s : PairingState) :
    (U ∈ s.pairedUsers →
      checkPairingPolicy U .pairing s = (⟨true, .allowed⟩, s)) ∧
    (U ∉ s.pairedUsers → U ∈ s.allowlist →
      checkPairingPolicy U .pairing s =
        (⟨true, .allowed⟩,
          { s with pairedUsers := jsSetAdd s.pairedUsers U })) ∧
    (U ∉ s.pairedUsers → U ∉ s.allowlist →
      checkPairingPolicy U .pairing s =
        (⟨false, .pending⟩,
          { s with pendingUsers := jsSetAdd s.pendingUsers U }) ∧
      checkPairingPolicy U .pairing
          { s with pendingUsers := jsSetAdd s.pendingUsers U } =
        (⟨false, .pending⟩,
          { s with pendingUsers := jsSetAdd s.pendingUsers U })) := by
  refine ⟨fun h => by simp [checkPairingPolicy, h],
    fun h1 h2 => by simp [checkPairingPolicy, h1, h2], fun h1 h2 => ⟨?_, ?_⟩⟩
  · by_cases hp : U ∈ s.pendingUsers
    · simp [checkPairingPolicy, h1, h2, hp, jsSetAdd]
    · simp [checkPairingPolicy, h1, h2, hp]
  · simp [checkPairingPolicy, h1, h2, mem_jsSetAdd_self]

/-- Witness for C1: the pending branch evaluated on a fresh user and an
empty state, twice. -/
theorem checkPairingPolicy_pairing_witness :
    checkPairingPolicy "u" .pairing ⟨[], [], []⟩ =
      (⟨false, .pending⟩, ⟨["u"], [], []⟩) ∧
    checkPairingPolicy "u" .pairing ⟨["u"], [], []⟩ =
      (⟨false, .pending⟩, ⟨["u"], [], []⟩) := by
  have h := (checkPairingPolicy_pairing_correct "u" ⟨[], [], []⟩).2.2
    (by decide) (by decide)
  simpa [jsSetAdd] using h

/-- C3 counterexample: a cached credential with exactly 60000 ms of
validity left (`expiresAt - now = 60000 ≥ 60000`) does trigger a network
refresh — the cache test is strict (`now < expiry - 60000`) — so the call
issues one network request and overwrites the cached fields. -/
theorem getTenantAccessToken_boundary_counterexample :
    (60000 : Int) - 0 ≥ 60000 ∧
    (getTenantAccessToken
      { appId := "app", appSecret := "sec", domain := .feishu,
        tenantAccessToken := some "tok", tokenExpiry := some 60000 } 0
      { code := 0, msg := "", tenant_access_token := "tok2",
        expire := 7200 }).networkCalls = 1 ∧
    (getTenantAccessToken
      { appId := "app", appSecret := "sec", domain := .feishu,
        tenantAccessToken := some "tok", tokenExpiry := some 60000 } 0
      { code := 0, msg := "", tenant_access_token := "tok2",
        expire := 7200 }).account.tenantAccessToken = some "tok2" := by
  refine ⟨by decide, rfl, rfl⟩

/-- C3 (amended): whenever the account holds a truthy cached token and a
truthy expiry with strictly more than 60000 ms of validity left
(`expiresAt - now > 60000`), `getTenantAccessToken` performs zero network
calls and returns the cached token with the account unmodified. -/
theorem getTenantAccessToken_cache_hit (acct : FeishuAccount) (now : Int)
    (resp : AuthResponse) (tok : String) (expiry : Int)
    (h1 : acct.tenantAccessToken = some tok) (h2 : tok ≠ "")
    (h3 : acct.tokenExpiry = some expiry) (h4 : expiry ≠ 0)
    (h5 : expiry - now > 60000) :
    getTenantAccessToken acct now resp =
      { result := .ok tok, account := acct, networkCalls := 0 } := by
  have hlt : now < expiry - 60000 := by omega
  simp [getTenantAccessToken, h1, h2, h3, h4, hlt]

/-- Witness for C3 (amended): a concrete fresh cached token is returned
without any network call. -/
theorem getTenantAccessToken_cache_hit_witness :
    getTenantAccessToken
      { appId := "app", appSecret := "sec", domain := .feishu,
        tenantAccessToken := some "tok", tokenExpiry := some 1000000 } 0
      { code := 0, msg := "", tenant_access_token := "tok2",
        expire := 7200 } =
      { result := .ok "tok"
        account :=
          { appId := "app", appSecret := "sec", domain := .feishu,
            tenantAccessToken := some "tok", tokenExpiry := some 1000000 }
        networkCalls := 0 } :=
  getTenantAccessToken_cache_hit _ 0 _ "tok" 1000000 rfl (by decide) rfl
    (by decide) (by decide)

/-- C9: `parseFeishuMessage` returns `null` whenever the sender's id-kind
is the bot's own application identity (`id_type = "app_id"`), for any other
field values, any account, and any date parser. -/
theorem parseFeishuMessage_app_id_none (dateParse : String → Int)
    (msg : FeishuMessage) (acct : FeishuAccount)
    (h : msg.sender.id_type = "app_id") :
    parseFeishuMessage dateParse msg acct = none := by
  simp [parseFeishuMessage, h]

/-- Witness for C9: a concrete bot-sent message is dropped. -/
theorem parseFeishuMessage_app_id_none_witness :
    parseFeishuMessage zeroDate
      { message_id := "m1", root_id := none, parent_id := none,
        chat_id := "c1", chat_type := "p2p",
        sender := { id := "u1", id_type := "app_id", name := none },
        message_type := "text", content := some (some "hi"),
        create_time := "0" } acct0 = none :=
  parseFeishuMessage_app_id_none zeroDate _ acct0 rfl

/-- C5 counterexample: when the wire content parses successfully but has no
`text` field (e.g. content `"{}"`, modelled as `some none`), the decoded
text is `""`, not the bracketed placeholder `"[image]"` the claim
requires. -/
theorem parseFeishuMessage_absent_text_counterexample :
    (parseFeishuMessage zeroDate
      { message_id := "m1", root_id := none, parent_id := none,
        chat_id := "c1", chat_type := "p2p",
        sender := { id := "u1", id_type := "open_id", name := none },
        message_type := "image", content := some none,
        create_time := "0" } acct0).map InboundMessage.text = some "" ∧
    ("" : String) ≠ "[image]" := by
  refine ⟨rfl, by decide⟩

/-- C5 (amended): for a non-bot sender, `parseFeishuMessage` never throws
(it is total) and extracts the text as follows: when the content's JSON
parse fails the text is the bracketed message kind; when the parse succeeds
the text is the parsed `text` field, with an absent or empty field
collapsing to `""`. -/
theorem parseFeishuMessage_text_extraction (dateParse : String → Int)
    (msg : FeishuMessage) (acct : FeishuAccount)
    (h : msg.sender.id_type ≠ "app_id") :
    (msg.content = none →
      (parseFeishuMessage dateParse msg acct).map InboundMessage.text =
        some ("[" ++ msg.message_type ++ "]")) ∧
    (∀ t, msg.content = some t →
      (parseFeishuMessage dateParse msg acct).map InboundMessage.text =
        some (t.getD "")) := by
  constructor
  · intro hc
    simp [parseFeishuMessage, h, hc]
  · intro t hc
    cases t with
    | none => simp [parseFeishuMessage, h, hc, jsOrStr]
    | some s =>
        by_cases hs : s = "" <;>
          simp [parseFeishuMessage, h, hc, jsOrStr, hs]

/-- Witness for C5 (amended): a concrete unparseable image payload decodes
to the `"[image]"` placeholder. -/
theorem parseFeishuMessage_text_extraction_witness :
    (parseFeishuMessage zeroDate
      { message_id := "m1", root_id := none, parent_id := none,
        chat_id := "c1", chat_type := "p2p",
        sender := { id := "u1", id_type := "open_id", name := none },
        message_type := "image", content := none,
        create_time := "0" } acct0).map InboundMessage.text =
      some "[image]" := by
  have h := (parseFeishuMessage_text_extraction zeroDate
    { message_id := "m1", root_id := none, parent_id := none,
      chat_id := "c1", chat_type := "p2p",
      sender := { id := "u1", id_type := "open_id", name := none },
      message_type := "image", content := none,
      create_time := "0" } acct0 (by decide)).1 rfl
  exact h

/-- C7: whenever the phase-1 upload response carries a non-zero `code`,
`sendMedia` returns `{ok:false, error:msg}` and issues zero phase-2
send-message calls. -/
theorem sendMedia_phase1_short_circuit (uploadResp sendResp : ApiResponse)
    (h : uploadResp.code ≠ 0) :
    sendMedia uploadResp sendResp =
      { result :=
          { ok := false, messageId := none, error := some uploadResp.msg }
        sendMessageCalls := 0 } := by
  simp [sendMedia, h]

/-- Witness for C7: a concrete failed upload short-circuits. -/
theorem sendMedia_phase1_short_circuit_witness :
    sendMedia
      { code := 1, msg := "bad upload", message_id := none,
        image_key := none }
      { code := 0, msg := "", message_id := some "mid",
        image_key := none } =
      { result :=
          { ok := false, messageId := none, error := some "bad upload" }
        sendMessageCalls := 0 } :=
  sendMedia_phase1_short_circuit _ _ (by decide)

/-- C8: under `renderMode=auto`, outbound rendering yields the interactive
card payload exactly when the text contains a fenced code marker or a pipe
character; otherwise the payload is `msg_type "text"` with the encoding of
`{text}`; in particular `"hello"` is sent as plain text. -/
theorem encodeOutboundText_auto_correct (text : String) :
    (encodeOutboundText .auto text =
        ("interactive", .interactive (renderMarkdownCard text)) ↔
      (jsIncludes text "```" || jsIncludes text "|") = true) ∧
    ((jsIncludes text "```" || jsIncludes text "|") = false →
      encodeOutboundText .auto text = ("text", .textJson text)) ∧
    encodeOutboundText .auto "hello" = ("text", .textJson "hello") := by
  refine ⟨?_, ?_, by decide⟩
  · by_cases h : (jsIncludes text "```" || jsIncludes text "|") = true
    · simp [encodeOutboundText, h]
    · simp [encodeOutboundText, h]
  · intro h
    simp [encodeOutboundText, h]

/-- Witness for C8: the plain-text branch evaluated at `"hello"`. -/
theorem encodeOutboundText_auto_correct_witness :
    encodeOutboundText .auto "hello" = ("text", .textJson "hello") :=
  (encodeOutboundText_auto_correct "hello").2.2

/-- C10: the host-facing `verifySignature` of both the WebSocket and the
webhook inbound adapters returns `true` for every input. -/
theorem verifySignature_always_true (payload signature timestamp : String) :
    webSocketVerifySignature payload signature timestamp = true ∧
    webhookVerifySignature payload signature timestamp = true :=
  ⟨rfl, rfl⟩

/-- Filtering-by-skipping: a `filterMap` that drops exactly the elements
satisfying `p` and maps the rest through `g` is a `filter` then `map`. -/
theorem filterMap_skip {α β : Type} (p : α → Bool) (g : α → β)
    (l : List α) :
    (l.filterMap fun x => if p x then none else some (g x)) =
      (l.filter fun x => !p x).map g := by
  induction l with
  | nil => rfl
  | cons a t ih => by_cases h : p a <;> simp [h, ih]

/-- The element-building branches of `renderMarkdownCard` collapse to:
skip fence-marker lines, emit one identical `div`/`lark_md` element for
every other line. -/
theorem renderElems_eq (ls : List String) :
    (ls.filterMap fun line =>
      if jsStartsWith line "```" then
        none
      else if jsStartsWith line "#" then
        some { tag := "div", textTag := "lark_md", content := line }
      else if jsStartsWith line "- " || jsStartsWith line "* " then
        some { tag := "div", textTag := "lark_md", content := line }
      else if startsWithNumDot line then
        some { tag := "div", textTag := "lark_md", content := line }
      else
        some { tag := "div", textTag := "lark_md", content := line }) =
    (ls.filter fun l => !(jsStartsWith l "```")).map
      (fun l => ({ tag := "div", textTag := "lark_md", content := l } :
        CardElement)) := by
  have hfun : (fun line =>
      if jsStartsWith line "```" then
        (none : Option CardElement)
      else if jsStartsWith line "#" then
        some { tag := "div", textTag := "lark_md", content := line }
      else if jsStartsWith line "- " || jsStartsWith line "* " then
        some { tag := "div", textTag := "lark_md", content := line }
      else if startsWithNumDot line then
        some { tag := "div", textTag := "lark_md", content := line }
      else
        some { tag := "div", textTag := "lark_md", content := line }) =
      fun line =>
        if jsStartsWith line "```" then
          none
        else
          some ({ tag := "div", textTag := "lark_md", content := line } :
            CardElement) := by
    funext line
    split_ifs <;> rfl
  rw [hfun, filterMap_skip]

/-- C4 counterexample: for the three-line text fencing the line `hi`, the
rendered card has a single element (the fence-marker lines are skipped),
not one element per line; under `renderMode=auto` this text picks the
interactive payload with that single element. -/
theorem renderMarkdownCard_fence_counterexample :
    (jsSplitLines "```\nhi\n```").length = 3 ∧
    (renderMarkdownCard "```\nhi\n```").elements =
      [{ tag := "div", textTag := "lark_md", content := "hi" }] ∧
    (encodeOutboundText .auto "```\nhi\n```").2 =
      .interactive (renderMarkdownCard "```\nhi\n```") := by
  refine ⟨by decide, by decide, by decide⟩

/-- C4 (amended): `renderMarkdownCard` produces exactly one card element
per line that does not start with a fence marker, preserving line order;
lines starting with a fence marker are skipped; every kept element
reproduces its line verbatim with identical `div`/`lark_md` styling
regardless of heading or list-marker prefixes; a text containing a fenced
code marker under `renderMode=auto` yields the interactive payload whose
card is exactly this rendering. -/
theorem renderMarkdownCard_line_elements (text : String) :
    (renderMarkdownCard text).elements =
      ((jsSplitLines text).filter fun l => !(jsStartsWith l "```")).map
        (fun l => ({ tag := "div", textTag := "lark_md", content := l } :
          CardElement)) ∧
    (jsIncludes text "```" = true →
      encodeOutboundText .auto text =
        ("interactive", .interactive (renderMarkdownCard text))) := by
  constructor
  · exact renderElems_eq (jsSplitLines text)
  · intro h
    simp [encodeOutboundText, h]

/-- Witness for C4 (amended): a one-line text renders to its single
element, and a lone fence marker picks the interactive payload. -/
theorem renderMarkdownCard_line_elements_witness :
    (renderMarkdownCard "x").elements =
      [{ tag := "div", textTag := "lark_md", content := "x" }] ∧
    encodeOutboundText .auto "```" =
      ("interactive", .interactive (renderMarkdownCard "```")) := by
  constructor
  · rw [(renderMarkdownCard_line_elements "x").1]
    decide
  · exact (renderMarkdownCard_line_elements "```").2 (by decide)

/-- C2 counterexample: with a secret configured and a signature that does
not match the HMAC, a request whose body is not valid JSON is answered
with status 500, not 401 — the handler parses the body before checking the
signature, and a parse failure hits the catch-all. -/
theorem handleWebhookPost_unparsed_counterexample :
    "bad" ≠ concatHmac "secret" ("ts" ++ "secret") ∧
    (handleWebhookPost concatHmac zeroDate (some "secret") none acct0
      ⟨[], [], []⟩ "ts" "bad" none).status = 500 ∧
    (handleWebhookPost concatHmac zeroDate (some "secret") none acct0
      ⟨[], [], []⟩ "ts" "bad" none).status ≠ 401 := by
  refine ⟨by decide, rfl, by decide⟩

/-- C2 (amended): for a POST whose body parses as JSON: with no
verification secret configured, a `url_verification` body is answered 200
with exactly the challenge-echo object, regardless of the signature
header; with a (truthy) secret configured and a signature header differing
from base64(HMAC-SHA256(secret, timestamp ++ secret)), the response is 401
and nothing is forwarded to `handleMessage` or `handleEvent`. -/
theorem handleWebhookPost_verification (hmac : String → String → String)
    (dateParse : String → Int) (dmp : Option DmPolicy)
    (acct : FeishuAccount) (st : PairingState) (ts sig : String)
    (data : WebhookBody) (secret : String) :
    (data.type = some "url_verification" →
      handleWebhookPost hmac dateParse none dmp acct st ts sig
          (some data) =
        { status := 200, body := .challengeEcho data.challenge,
          messages := [], events := [], prompts := [], state := st }) ∧
    (secret ≠ "" → sig ≠ hmac secret (ts ++ secret) →
      handleWebhookPost hmac dateParse (some secret) dmp acct st ts sig
          (some data) =
        { status := 401, body := .invalidSignature, messages := [],
          events := [], prompts := [], state := st }) := by
  constructor
  · intro h
    simp [handleWebhookPost, h]
  · intro h1 h2
    simp [handleWebhookPost, h1, h2]

/-- Witness for C2 (amended): a concrete challenge echo and a concrete
signature rejection. -/
theorem handleWebhookPost_verification_witness :
    handleWebhookPost concatHmac zeroDate none none acct0 ⟨[], [], []⟩
      "ts" "sig"
      (some
        { type := some "url_verification"
          challenge := some "abc"
          event := none }) =
      { status := 200, body := .challengeEcho (some "abc"), messages := [],
        events := [], prompts := [], state := ⟨[], [], []⟩ } ∧
    handleWebhookPost concatHmac zeroDate (some "secret") none acct0
      ⟨[], [], []⟩ "ts" "bad"
      (some { type := none, challenge := none, event := none }) =
      { status := 401, body := .invalidSignature, messages := [],
        events := [], prompts := [], state := ⟨[], [], []⟩ } := by
  constructor
  · exact (handleWebhookPost_verification concatHmac zeroDate none acct0
      ⟨[], [], []⟩ "ts" "sig"
      { type := some "url_verification"
        challenge := some "abc"
        event := none } "x").1 rfl
  · exact (handleWebhookPost_verification concatHmac zeroDate none acct0
      ⟨[], [], []⟩ "ts" "bad"
      { type := none, challenge := none, event := none } "secret").2
      (by decide) (by decide)

/-- C6: the code violates the claim. Starting from a connected session, if
the transport closes and `stop()` runs before the close handler does, the
handler still schedules a reconnect — `currentAccount`/`currentConfig` are
never cleared and no stopped flag exists — and when the timer fires,
`connect` runs again: the connection count rises from 1 to 2 after stop
and a socket exists again. -/
theorem wsRun_reconnect_after_stop :
    (wsRun wsConnectedState
      [.transportClose, .stopCall, .oncloseFires, .timerFires]
      ).stopRequested = true ∧
    wsConnectedState.connects = 1 ∧
    (wsRun wsConnectedState
      [.transportClose, .stopCall, .oncloseFires, .timerFires]
      ).connects = 2 ∧
    (wsRun wsConnectedState
      [.transportClose, .stopCall, .oncloseFires, .timerFires]
      ).wsExists = true := by
  refine ⟨rfl, rfl, rfl, rfl⟩

end Feishu
